import Mathlib

/-!
Shallow embedding of measure-n-jfet.py: the framed serial protocol
(checksum trailer, send_command / recv_command), the njfet reply handling,
and the curve-fitting functions (least_squares, compute_error,
compute_cutoff), with theorems checking the specification's claims.

Bytes are modelled as natural numbers (0..255); the serial input is a
finite list of bytes, where exhausting the list models a read that
returns no data (timeout).  Machine integers are Nat with explicit
masking; floats are idealised as real numbers (exact arithmetic), and
rationals are used where claims are evaluated on concrete inputs.
-/

/-- One bit-step of the standard (reflected, polynomial 0xEDB88320)
CRC-32 used by binascii.crc32. -/
def crc32_step (c : Nat) : Nat :=
  if c &&& 1 = 1 then (c >>> 1) ^^^ 0xEDB88320 else c >>> 1

/-- Fold one payload byte into the CRC-32 accumulator. -/
def crc32_update (c b : Nat) : Nat :=
  crc32_step^[8] (c ^^^ b)

/-- CRC-32 of a byte list, as binascii.crc32 computes it (masked to
32 bits, i.e. the unsigned value). -/
def crc32 (data : List Nat) : Nat :=
  (data.foldl crc32_update 0xFFFFFFFF) ^^^ 0xFFFFFFFF

/-- The eight checksum bytes appended by send_command (lines 63-71 of
measure-n-jfet.py) and recomputed by recv_command (lines 105-113):
CRC-32 of the payload masked to 32 bits, nibbles most-significant
first, each rendered as 97 + nibble. -/
def checksum_trailer (data : List Nat) : List Nat :=
  let checksum := crc32 data &&& 0xFFFFFFFF
  [97 + (checksum >>> 28 &&& 0xf),
   97 + (checksum >>> 24 &&& 0xf),
   97 + (checksum >>> 20 &&& 0xf),
   97 + (checksum >>> 16 &&& 0xf),
   97 + (checksum >>> 12 &&& 0xf),
   97 + (checksum >>> 8 &&& 0xf),
   97 + (checksum >>> 4 &&& 0xf),
   97 + (checksum &&& 0xf)]

/-- Byte stream written by send_command: payload, checksum trailer,
then a carriage return (byte 13). -/
def send_command (data : List Nat) : List Nat :=
  data ++ checksum_trailer data ++ [13]

/-- Outcome of recv_command.  Each constructor carries the receive
buffer state at the moment the call returns or raises. -/
inductive RecvResult where
  | ok (payload : List Nat) (buf : List Nat) (rest : List Nat)
  | timeout (seconds : Nat) (buf : List Nat)
  | overflow (buf : List Nat)
deriving DecidableEq, Repr

/-- recv_command (lines 84-128 of measure-n-jfet.py).  The first
argument is the current receive buffer (receive_buf[0:receive_pos]),
the second the remaining serial input.  An exhausted input models a
read returning no data: SerialTimeoutException after IO_TIMEOUT_SEC =
10 seconds.  On a carriage return the accumulated bytes form a
candidate: the buffer is reset, candidates of length at most 8 are
dropped (short packet), candidates whose last 8 bytes differ from the
recomputed checksum of the preceding bytes are dropped (bad checksum),
and otherwise the payload is returned.  Any other byte is appended;
when the buffer reaches capacity 4096 it is reset and the buffer
overflow error is raised. -/
def recv_command : List Nat → List Nat → RecvResult
  | buf, [] => RecvResult.timeout 10 buf
  | buf, c :: rest =>
    if c = 13 then
      if buf.length ≤ 8 then
        recv_command [] rest
      else if buf.drop (buf.length - 8) = checksum_trailer (buf.take (buf.length - 8)) then
        RecvResult.ok (buf.take (buf.length - 8)) [] rest
      else
        recv_command [] rest
    else
      if buf.length + 1 = 4096 then
        RecvResult.overflow []
      else
        recv_command (buf ++ [c]) rest

/-- Python exceptions raised by the njfet reply handling: a ValueError
carrying a message, or the KeyError produced by looking up a key that
the reply dictionary does not have. -/
inductive PyExc where
  | valueError (msg : String)
  | keyError (key : String)
deriving DecidableEq, Repr

/-- A parsed njfet reply document.  The fields model the JSON keys the
script accesses: an optional "Error" entry, the "Vgate" and "Idrain"
sequences, and an optional entry under the key "Bad transistor!",
which line 146 of the source looks up when building its error. -/
structure Reply where
  error : Option String
  vgate : List ℝ
  idrain : List ℝ
  badTransistor : Option String

/-- The exception raised at line 146: ValueError(reply["Bad
transistor!"]).  Evaluating the dictionary lookup first, Python raises
KeyError when the key is absent, and otherwise a ValueError carrying
the looked-up string. -/
def badTransistorExc (reply : Reply) : PyExc :=
  match reply.badTransistor with
  | some s => PyExc.valueError s
  | none => PyExc.keyError "Bad transistor!"

/-- Reply checks of lines 136-146: a reply containing an "Error" field
raises ValueError with the device message; then, with N the length of
the gate-voltage sequence, N < 10 raises at line 146; otherwise the
two sample sequences are handed to the fitting code. -/
def njfet_check (reply : Reply) : Except PyExc (List ℝ × List ℝ) :=
  match reply.error with
  | some msg => Except.error (PyExc.valueError msg)
  | none =>
    if reply.vgate.length < 10 then
      Except.error (badTransistorExc reply)
    else
      Except.ok (reply.vgate, reply.idrain)

/-- least_squares (lines 161-169), generic in the number field: with K
the number of points, a = (K Σxy − Σx Σy) / (K Σx² − (Σx)²) and
b = (Σy − a Σx) / K. -/
def least_squares {F : Type} [Field F] (x y : List F) : F × F :=
  let K : F := (x.length : F)
  let sum_x := x.sum
  let sum_y := y.sum
  let sum_xy := ((x.zip y).map (fun p => p.1 * p.2)).sum
  let sum_x2 := ((x.zip x).map (fun p => p.1 * p.2)).sum
  let a := (K * sum_xy - sum_x * sum_y) / (K * sum_x2 - sum_x * sum_x)
  let b := (sum_y - a * sum_x) / K
  (a, b)

/-- compute_error (lines 180-186): residual of the quadratic model
y = c (x − x0)² with c = exp(mean(ln y − 2 ln(x − x0))); returns the
sum of squared residuals. -/
noncomputable def compute_error (x0 : ℝ) (x y : List ℝ) : ℝ :=
  let K : ℝ := (x.length : ℝ)
  let c := Real.exp ((((x.zip y).map
    (fun p => Real.log p.2 - 2 * Real.log (p.1 - x0))).sum) / K)
  (((x.zip y).map (fun p => (p.2 - (p.1 - x0) ^ 2 * c) ^ 2)).sum)

/-- The descent loop of compute_cutoff (lines 193-203), generic in the
value carriers: starting from x0, while the error of the next step
down does not exceed the current error, step x0 down by 0.01; return
x0 as soon as the next step would strictly increase the error.  The
loop of the source has no termination bound, so the embedding takes
fuel and returns none when the fuel runs out. -/
def compute_cutoffF {F : Type} [DivisionRing F] {E : Type} [LinearOrder E]
    (e : F → E) : Nat → F → Option F
  | 0, _ => none
  | fuel + 1, x0 =>
    if e x0 < e (x0 - 1 / 100) then some x0
    else compute_cutoffF e fuel (x0 - 1 / 100)

/-- compute_cutoff as called by the script: the descent loop with the
error function given by compute_error on the fixed sample window. -/
noncomputable def compute_cutoff (fuel : Nat) (x0 : ℝ) (x y : List ℝ) : Option ℝ :=
  compute_cutoffF (fun t => compute_error t x y) fuel x0

/-- Python list slicing l[start:stop]: negative indices count from the
end, and both bounds clamp to the list. -/
def pyslice {α : Type} (l : List α) (start stop : Int) : List α :=
  let n : Int := (l.length : Int)
  let s : Int := if start < 0 then start + n else start
  let e : Int := if stop < 0 then stop + n else stop
  (l.take e.toNat).drop s.toNat

/-- Python int() on a number: truncation toward zero. -/
def pyint {F : Type} [LinearOrderedField F] [FloorRing F] (q : F) : ℤ :=
  if 0 ≤ q then ⌊q⌋ else ⌈q⌉

/-- Initial cutoff guess of line 209: Voff1 = int(Vg[-1] * 100 - 1) * 0.01. -/
def Voff1guess {F : Type} [LinearOrderedField F] [FloorRing F] (v : F) : F :=
  ((pyint (v * 100 - 1) : ℤ) : F) * (1 / 100)

/-- The fitting pipeline of lines 175-220: (Yfs, Idss) from
least_squares on Vg[:7], Id[:7]; Voff from compute_cutoff started at
Voff1 on the window Vg[-8:-1], Id[-8:-1]; Vsat = 2 (−Voff − Idss/Yfs).
Returns (Idss, Voff, Yfs, Vsat), or none when the descent loop runs
out of fuel. -/
noncomputable def fit_params (fuel : Nat) (Vg Id : List ℝ) :
    Option (ℝ × ℝ × ℝ × ℝ) :=
  let YI := least_squares (pyslice Vg 0 7) (pyslice Id 0 7)
  let Voff1 := Voff1guess (Vg.getLastD 0)
  match compute_cutoff fuel Voff1 (pyslice Vg (-8) (-1)) (pyslice Id (-8) (-1)) with
  | none => none
  | some Voff => some (YI.2, Voff, YI.1, 2 * (-Voff - YI.2 / YI.1))

/-- Python 2 round(x, 2): round half away from zero at two decimals. -/
noncomputable def round2 (x : ℝ) : ℝ :=
  (if 0 ≤ x then ((⌊x * 100 + 1 / 2⌋ : ℤ) : ℝ) else ((⌈x * 100 - 1 / 2⌉ : ℤ) : ℝ)) / 100

/-- The JSON result file written at lines 234-243: the four parameters
rounded to two decimals, and the raw sample sequences. -/
structure ResultFile where
  idss : ℝ
  voff : ℝ
  yfs : ℝ
  vsat : ℝ
  vgRaw : List ℝ
  idRaw : List ℝ

/-- The njfet part of the session: check the reply, then fit and build
the result file.  An Except.error models an uncaught exception (no fit
output, no file); Except.ok none models the descent loop exceeding the
fuel (the script would not terminate, hence also write no file). -/
noncomputable def session (fuel : Nat) (reply : Reply) :
    Except PyExc (Option ResultFile) :=
  match njfet_check reply with
  | Except.error e => Except.error e
  | Except.ok (Vg, Id) =>
    Except.ok ((fit_params fuel Vg Id).map
      (fun p => ⟨round2 p.1, round2 p.2.1, round2 p.2.2.1, round2 p.2.2.2, Vg, Id⟩))

/-! ### Helper lemmas about the checksum trailer and recv_command -/

theorem checksum_trailer_length (data : List Nat) :
    (checksum_trailer data).length = 8 := rfl

theorem checksum_trailer_ge (data : List Nat) :
    ∀ b ∈ checksum_trailer data, 97 ≤ b := by
  intro b hb
  simp only [checksum_trailer, List.mem_cons, List.not_mem_nil, or_false] at hb
  rcases hb with h | h | h | h | h | h | h | h <;> omega

theorem checksum_trailer_ne_cr (data : List Nat) :
    ∀ b ∈ checksum_trailer data, b ≠ 13 := by
  intro b hb
  have := checksum_trailer_ge data b hb
  omega

theorem recv_command_nil (buf : List Nat) :
    recv_command buf [] = RecvResult.timeout 10 buf := rfl

theorem recv_command_cons (buf : List Nat) (c : Nat) (rest : List Nat) :
    recv_command buf (c :: rest) =
      if c = 13 then
        if buf.length ≤ 8 then
          recv_command [] rest
        else if buf.drop (buf.length - 8) = checksum_trailer (buf.take (buf.length - 8)) then
          RecvResult.ok (buf.take (buf.length - 8)) [] rest
        else
          recv_command [] rest
      else
        if buf.length + 1 = 4096 then
          RecvResult.overflow []
        else
          recv_command (buf ++ [c]) rest := by
  rw [recv_command]

/-- Feeding non-terminator bytes into a buffer that has room simply
accumulates them. -/
theorem recv_feed (bytes : List Nat) : ∀ (buf rest : List Nat),
    (∀ b ∈ bytes, b ≠ 13) → buf.length + bytes.length < 4096 →
    recv_command buf (bytes ++ rest) = recv_command (buf ++ bytes) rest := by
  induction bytes with
  | nil => intro buf rest _ _; simp
  | cons c bs ih =>
    intro buf rest h13 hlen
    have hc : c ≠ 13 := h13 c (by simp)
    rw [List.cons_append, recv_command_cons, if_neg hc, if_neg (by simp at hlen; omega)]
    rw [ih (buf ++ [c]) rest (fun b hb => h13 b (by simp [hb]))
      (by simp at hlen ⊢; omega)]
    simp

/-- A well-formed frame (payload, its checksum trailer, carriage
return) is accepted: the payload is returned and the buffer reset. -/
theorem recv_accepts_valid (p rest : List Nat) (hp : p ≠ [])
    (h13 : ∀ b ∈ p, b ≠ 13) (hlen : p.length + 8 < 4096) :
    recv_command [] (send_command p ++ rest) = RecvResult.ok p [] rest := by
  have hfeed : recv_command [] ((p ++ checksum_trailer p) ++ (13 :: rest)) =
      recv_command ([] ++ (p ++ checksum_trailer p)) (13 :: rest) := by
    apply recv_feed
    · intro b hb
      rcases List.mem_append.mp hb with h | h
      · exact h13 b h
      · exact checksum_trailer_ne_cr p b h
    · simp [checksum_trailer_length, Nat.add_comm]
      omega
  have hshape : send_command p ++ rest = (p ++ checksum_trailer p) ++ (13 :: rest) := by
    simp [send_command]
  rw [hshape, hfeed]
  have hlen2 : (p ++ checksum_trailer p).length = p.length + 8 := by
    simp [checksum_trailer_length]
  have hpos : 0 < p.length := List.length_pos.mpr hp
  rw [List.nil_append, recv_command_cons, if_pos rfl, if_neg (by omega)]
  have hdrop : (p ++ checksum_trailer p).drop ((p ++ checksum_trailer p).length - 8) =
      checksum_trailer p := by
    rw [hlen2, Nat.add_sub_cancel, List.drop_left]
  have htake : (p ++ checksum_trailer p).take ((p ++ checksum_trailer p).length - 8) = p := by
    rw [hlen2, Nat.add_sub_cancel, List.take_left]
  rw [hdrop, htake, if_pos rfl]

/-- A malformed candidate (short packet or bad checksum) followed by a
carriage return is dropped and reception continues on the rest of the
stream with a reset buffer. -/
theorem recv_skips_bad (m rest : List Nat) (hm13 : ∀ b ∈ m, b ≠ 13)
    (hmlen : m.length < 4096)
    (hbad : m.length ≤ 8 ∨
      m.drop (m.length - 8) ≠ checksum_trailer (m.take (m.length - 8))) :
    recv_command [] (m ++ 13 :: rest) = recv_command [] rest := by
  rw [recv_feed m [] (13 :: rest) hm13 (by simpa using hmlen), List.nil_append,
    recv_command_cons, if_pos rfl]
  rcases hbad with h | h
  · rw [if_pos h]
  · rcases le_or_lt m.length 8 with h8 | h8
    · rw [if_pos h8]
    · rw [if_neg (by omega), if_neg h]

/-- Reading 4096 - (current fill) further non-terminator bytes
overflows the buffer, which is reset before the error is raised. -/
theorem recv_overflow_aux (input : List Nat) : ∀ buf : List Nat,
    buf.length < 4096 → 4096 ≤ buf.length + input.length →
    (∀ b ∈ input.take (4096 - buf.length), b ≠ 13) →
    recv_command buf input = RecvResult.overflow [] := by
  induction input with
  | nil => intro buf hlt hge _; simp at hge; omega
  | cons c cs ih =>
    intro buf hlt hge h13
    have hc : c ≠ 13 := by
      apply h13 c
      have : 0 < 4096 - buf.length := by omega
      rcases Nat.exists_eq_succ_of_ne_zero (Nat.pos_iff_ne_zero.mp this) with ⟨k, hk⟩
      rw [hk, List.take_succ_cons]
      simp
    rw [recv_command_cons, if_neg hc]
    by_cases hfull : buf.length + 1 = 4096
    · rw [if_pos hfull]
    · rw [if_neg hfull]
      apply ih
      · simp; omega
      · simp at hge ⊢; omega
      · intro b hb
        apply h13 b
        have hk : 4096 - buf.length = (4096 - (buf ++ [c]).length) + 1 := by
          simp; omega
        rw [hk, List.take_succ_cons]
        simp at hb ⊢
        right
        exact hb

theorem nibble_div (x k : Nat) : x >>> k &&& 0xf = x / 2 ^ k % 16 := by
  rw [Nat.shiftRight_eq_div_pow]
  have h := Nat.and_pow_two_sub_one_eq_mod (x / 2 ^ k) 4
  norm_num at h
  exact h

/-! ### Claim theorems C1 - C5 -/

/-- C1.  Checksum round-trip: the frame written by send_command for any
payload is accepted by recv_command, which returns exactly that
payload — the trailer appended on send is the one the byte-for-byte
checksum comparison on receive accepts. -/
theorem checksum_roundtrip (p rest : List Nat) (hp : p ≠ [])
    (h13 : ∀ b ∈ p, b ≠ 13) (hlen : p.length + 8 < 4096) :
    recv_command [] (send_command p ++ rest) = RecvResult.ok p [] rest :=
  recv_accepts_valid p rest hp h13 hlen

theorem checksum_roundtrip_witness :
    (([118, 101, 114, 115, 105, 111, 110] : List Nat) ≠ [] ∧
      (∀ b ∈ ([118, 101, 114, 115, 105, 111, 110] : List Nat), b ≠ 13) ∧
      ([118, 101, 114, 115, 105, 111, 110] : List Nat).length + 8 < 4096) ∧
    recv_command [] (send_command [118, 101, 114, 115, 105, 111, 110] ++ []) =
      RecvResult.ok [118, 101, 114, 115, 105, 111, 110] [] [] :=
  ⟨⟨by decide, by decide, by decide⟩,
    checksum_roundtrip [118, 101, 114, 115, 105, 111, 110] [] (by decide)
      (by decide) (by decide)⟩

/-- C2.  Checksum encoding: the trailer consists of the 8 nibbles of
the masked CRC-32 of the payload, most significant first, each mapped
to the byte ASCII of a plus the nibble; hence every trailer byte lies
between the codes of a and p. -/
theorem checksum_trailer_encoding (p : List Nat) :
    checksum_trailer p =
      (List.range 8).map
        (fun i => 'a'.toNat + (crc32 p &&& 0xFFFFFFFF) / 2 ^ (4 * (7 - i)) % 16) ∧
    ∀ b ∈ checksum_trailer p, 'a'.toNat ≤ b ∧ b ≤ 'p'.toNat := by
  constructor
  · show checksum_trailer p = _
    simp only [checksum_trailer, List.range_succ, List.range_zero, List.map_append,
      List.map_cons, List.map_nil, List.nil_append, List.cons_append]
    have h28 := nibble_div (crc32 p &&& 0xFFFFFFFF) 28
    have h24 := nibble_div (crc32 p &&& 0xFFFFFFFF) 24
    have h20 := nibble_div (crc32 p &&& 0xFFFFFFFF) 20
    have h16 := nibble_div (crc32 p &&& 0xFFFFFFFF) 16
    have h12 := nibble_div (crc32 p &&& 0xFFFFFFFF) 12
    have h8 := nibble_div (crc32 p &&& 0xFFFFFFFF) 8
    have h4 := nibble_div (crc32 p &&& 0xFFFFFFFF) 4
    have h0 : crc32 p &&& 0xFFFFFFFF &&& 0xf = (crc32 p &&& 0xFFFFFFFF) % 16 := by
      have h := Nat.and_pow_two_sub_one_eq_mod (crc32 p &&& 0xFFFFFFFF) 4
      norm_num at h
      exact h
    rw [h28, h24, h20, h16, h12, h8, h4, h0]
    norm_num
    decide
  · intro b hb
    have h1 := checksum_trailer_ge p b hb
    constructor
    · simpa using h1
    · show b ≤ 112
      simp only [checksum_trailer, List.mem_cons, List.not_mem_nil, or_false] at hb
      rcases hb with h | h | h | h | h | h | h | h <;> subst h <;>
        exact le_trans (Nat.add_le_add_left Nat.and_le_right 97) (by norm_num)

/-- C3.  Malformed-frame recovery: a candidate that is short (length
at most 8) or whose last 8 bytes fail the checksum comparison is
discarded with the buffer reset, and reception continues, so a
malformed frame followed by a valid one yields the valid frame's
payload. -/
theorem recv_recovers_malformed (m p rest : List Nat)
    (hm13 : ∀ b ∈ m, b ≠ 13) (hmlen : m.length < 4096)
    (hbad : m.length ≤ 8 ∨
      m.drop (m.length - 8) ≠ checksum_trailer (m.take (m.length - 8)))
    (hp : p ≠ []) (hp13 : ∀ b ∈ p, b ≠ 13) (hplen : p.length + 8 < 4096) :
    recv_command [] (m ++ 13 :: (send_command p ++ rest)) = RecvResult.ok p [] rest := by
  rw [recv_skips_bad m (send_command p ++ rest) hm13 hmlen hbad]
  exact recv_accepts_valid p rest hp hp13 hplen

theorem recv_recovers_malformed_witness :
    ((∀ b ∈ ([65] : List Nat), b ≠ 13) ∧
      ([65] : List Nat).length < 4096 ∧
      (([65] : List Nat).length ≤ 8 ∨
        ([65] : List Nat).drop (([65] : List Nat).length - 8) ≠
          checksum_trailer (([65] : List Nat).take (([65] : List Nat).length - 8))) ∧
      ([118] : List Nat) ≠ [] ∧
      (∀ b ∈ ([118] : List Nat), b ≠ 13) ∧
      ([118] : List Nat).length + 8 < 4096) ∧
    recv_command [] ([65] ++ 13 :: (send_command [118] ++ [])) =
      RecvResult.ok [118] [] [] :=
  ⟨⟨by decide, by decide, by decide, by decide, by decide, by decide⟩,
    recv_recovers_malformed [65] [118] [] (by decide) (by decide) (by decide)
      (by decide) (by decide) (by decide)⟩

/-- C4.  Buffer overflow: 4096 bytes without a carriage return make
recv_command fail with the buffer-overflow error, and the buffer is
reset (emptied) before the error is raised. -/
theorem recv_buffer_overflow (input : List Nat) (hlen : 4096 ≤ input.length)
    (h13 : ∀ b ∈ input.take 4096, b ≠ 13) :
    recv_command [] input = RecvResult.overflow [] := by
  apply recv_overflow_aux input []
  · simp
  · simpa using hlen
  · simpa using h13

theorem recv_buffer_overflow_witness :
    (4096 ≤ (List.replicate 4096 (0 : Nat)).length ∧
      ∀ b ∈ (List.replicate 4096 (0 : Nat)).take 4096, b ≠ 13) ∧
    recv_command [] (List.replicate 4096 (0 : Nat)) = RecvResult.overflow [] :=
  ⟨⟨(List.length_replicate 4096 0).symm.le, by
      intro b hb
      have hb2 : b ∈ List.replicate 4096 (0 : Nat) := List.mem_of_mem_take hb
      rw [List.eq_of_mem_replicate hb2]
      decide⟩,
    recv_buffer_overflow (List.replicate 4096 (0 : Nat)) ((List.length_replicate 4096 0).symm.le) (by
      intro b hb
      have hb2 : b ∈ List.replicate 4096 (0 : Nat) := List.mem_of_mem_take hb
      rw [List.eq_of_mem_replicate hb2]
      decide)⟩

/-- C5.  Read timeout preserves the partial buffer: when the input is
exhausted mid-frame the result is the timeout error carrying the
configured 10 second duration, and the buffer holds exactly the bytes
accumulated so far — it is not reset. -/
theorem recv_timeout_keeps_buffer (buf input : List Nat)
    (h13 : ∀ b ∈ input, b ≠ 13) (hlen : buf.length + input.length < 4096) :
    recv_command buf input = RecvResult.timeout 10 (buf ++ input) := by
  have h := recv_feed input buf [] h13 hlen
  rw [List.append_nil] at h
  rw [h, recv_command_nil]

theorem recv_timeout_keeps_buffer_witness :
    ((∀ b ∈ ([3] : List Nat), b ≠ 13) ∧
      ([1, 2] : List Nat).length + ([3] : List Nat).length < 4096) ∧
    recv_command [1, 2] [3] = RecvResult.timeout 10 [1, 2, 3] :=
  ⟨⟨by decide, by decide⟩,
    recv_timeout_keeps_buffer [1, 2] [3] (by decide) (by decide)⟩

/-! ### Claim theorems C6 - C8 -/

/-- C6.  Insufficient data: with no device-reported error field and a
gate-voltage sequence of fewer than 10 samples, the session raises at
the N < 10 check (modelled as the exception built from the reply's
"Bad transistor!" entry): the curve fit is never reached and no result
file is produced. -/
theorem insufficient_data_aborts (fuel : Nat) (reply : Reply)
    (herr : reply.error = none) (hlen : reply.vgate.length < 10) :
    session fuel reply = Except.error (badTransistorExc reply) ∧
    ∀ out : Option ResultFile, session fuel reply ≠ Except.ok out := by
  have hcheck : njfet_check reply = Except.error (badTransistorExc reply) := by
    rw [njfet_check, herr]
    simp [hlen]
  constructor
  · rw [session, hcheck]
  · intro out
    rw [session, hcheck]
    simp

theorem insufficient_data_aborts_witness :
    ((⟨none, [0, -1, -2], [5, 3, 1], none⟩ : Reply).error = none ∧
      (⟨none, [0, -1, -2], [5, 3, 1], none⟩ : Reply).vgate.length < 10) ∧
    (session 7 ⟨none, [0, -1, -2], [5, 3, 1], none⟩ =
        Except.error (badTransistorExc ⟨none, [0, -1, -2], [5, 3, 1], none⟩) ∧
      ∀ out : Option ResultFile,
        session 7 ⟨none, [0, -1, -2], [5, 3, 1], none⟩ ≠ Except.ok out) :=
  ⟨⟨rfl, by norm_num⟩,
    insufficient_data_aborts 7 ⟨none, [0, -1, -2], [5, 3, 1], none⟩ rfl (by norm_num)⟩

/-- C7.  Device-reported error passthrough: a reply carrying an
"Error" field makes the njfet handling fail with a ValueError whose
message is the device's string verbatim, before any samples are
extracted, and the session produces no result. -/
theorem device_error_verbatim (fuel : Nat) (reply : Reply) (msg : String)
    (herr : reply.error = some msg) :
    njfet_check reply = Except.error (PyExc.valueError msg) ∧
    session fuel reply = Except.error (PyExc.valueError msg) := by
  have hcheck : njfet_check reply = Except.error (PyExc.valueError msg) := by
    rw [njfet_check, herr]
  exact ⟨hcheck, by rw [session, hcheck]⟩

theorem device_error_verbatim_witness :
    (⟨some "Bad transistor connection", [], [], none⟩ : Reply).error =
        some "Bad transistor connection" ∧
    (njfet_check ⟨some "Bad transistor connection", [], [], none⟩ =
        Except.error (PyExc.valueError "Bad transistor connection") ∧
      session 3 ⟨some "Bad transistor connection", [], [], none⟩ =
        Except.error (PyExc.valueError "Bad transistor connection")) :=
  ⟨rfl, device_error_verbatim 3 ⟨some "Bad transistor connection", [], [], none⟩
    "Bad transistor connection" rfl⟩

/-- C8.  Ordinary least squares: for any equal-length sequences the
result is the textbook slope and intercept formulas over K = len(x)
points, and on x = [0,1,2,3], y = [0,2,4,6] the fit is exactly slope 2
and intercept 0. -/
theorem least_squares_formula :
    (∀ x y : List ℚ,
      least_squares x y =
        (((x.length : ℚ) * ((x.zip y).map (fun p => p.1 * p.2)).sum - x.sum * y.sum) /
            ((x.length : ℚ) * ((x.zip x).map (fun p => p.1 * p.2)).sum - x.sum * x.sum),
          (y.sum -
              ((x.length : ℚ) * ((x.zip y).map (fun p => p.1 * p.2)).sum - x.sum * y.sum) /
                ((x.length : ℚ) * ((x.zip x).map (fun p => p.1 * p.2)).sum - x.sum * x.sum) *
              x.sum) /
            (x.length : ℚ))) ∧
    least_squares ([0, 1, 2, 3] : List ℚ) [0, 2, 4, 6] = (2, 0) := by
  constructor
  · intro x y
    rfl
  · norm_num [least_squares, List.zip, List.zipWith]

/-! ### Claim theorems C9 - C10 -/

theorem pyslice_take7 {α : Type} (l : List α) : pyslice l 0 7 = l.take 7 := by
  simp [pyslice]

theorem pyslice_window {α : Type} (l : List α) (h : 8 ≤ l.length) :
    pyslice l (-8) (-1) = (l.drop (l.length - 8)).dropLast := by
  have hs : ((-8 : Int) + (l.length : Int)).toNat = l.length - 8 := by omega
  have he : ((-1 : Int) + (l.length : Int)).toNat = l.length - 1 := by omega
  have h7 : l.length - (l.length - 8) - 1 = 7 := by omega
  have h17 : l.length - 8 + 7 = l.length - 1 := by omega
  rw [pyslice]
  simp only [if_pos (by norm_num : (-8 : Int) < 0), if_pos (by norm_num : (-1 : Int) < 0)]
  rw [hs, he, List.dropLast_eq_take, List.length_drop, h7, List.take_drop, h17]

/-- C9.  Parameter-computation composition: the fitted tuple is
(Idss, Voff, Yfs, Vsat) with (Yfs, Idss) the least-squares fit of the
first 7 samples, Voff the cutoff refinement run on the window of the
last 7 samples excluding the very last point (the Python slices
Vg[-8:-1], Id[-8:-1], which under N >= 10 have exactly 7 elements),
and Vsat = 2 (−Voff − Idss / Yfs). -/
theorem fit_params_composition (fuel : Nat) (Vg Id : List ℝ)
    (h10 : 10 ≤ Vg.length) (hlen : Id.length = Vg.length) :
    fit_params fuel Vg Id =
      (compute_cutoff fuel (Voff1guess (Vg.getLastD 0))
          ((Vg.drop (Vg.length - 8)).dropLast) ((Id.drop (Id.length - 8)).dropLast)).map
        (fun Voff =>
          ((least_squares (Vg.take 7) (Id.take 7)).2, Voff,
            (least_squares (Vg.take 7) (Id.take 7)).1,
            2 * (-Voff - (least_squares (Vg.take 7) (Id.take 7)).2 /
              (least_squares (Vg.take 7) (Id.take 7)).1))) ∧
    ((Vg.drop (Vg.length - 8)).dropLast).length = 7 ∧
    ((Id.drop (Id.length - 8)).dropLast).length = 7 := by
  refine ⟨?_, ?_, ?_⟩
  · rw [fit_params, pyslice_take7, pyslice_take7, pyslice_window Vg (by omega),
      pyslice_window Id (by omega)]
    cases compute_cutoff fuel (Voff1guess (Vg.getLastD 0))
        ((Vg.drop (Vg.length - 8)).dropLast) ((Id.drop (Id.length - 8)).dropLast) <;>
      simp
  · rw [List.length_dropLast, List.length_drop]; omega
  · rw [List.length_dropLast, List.length_drop]; omega

theorem fit_params_composition_witness :
    (10 ≤ ([0, 0, 0, 0, 0, 0, 0, 0, 0, 0] : List ℝ).length ∧
      ([1, 1, 1, 1, 1, 1, 1, 1, 1, 1] : List ℝ).length =
        ([0, 0, 0, 0, 0, 0, 0, 0, 0, 0] : List ℝ).length) ∧
    (fit_params 0 ([0, 0, 0, 0, 0, 0, 0, 0, 0, 0] : List ℝ) [1, 1, 1, 1, 1, 1, 1, 1, 1, 1] =
      (compute_cutoff 0 (Voff1guess (([0, 0, 0, 0, 0, 0, 0, 0, 0, 0] : List ℝ).getLastD 0))
          ((([0, 0, 0, 0, 0, 0, 0, 0, 0, 0] : List ℝ).drop
              (([0, 0, 0, 0, 0, 0, 0, 0, 0, 0] : List ℝ).length - 8)).dropLast)
          ((([1, 1, 1, 1, 1, 1, 1, 1, 1, 1] : List ℝ).drop
              (([1, 1, 1, 1, 1, 1, 1, 1, 1, 1] : List ℝ).length - 8)).dropLast)).map
        (fun Voff =>
          ((least_squares (([0, 0, 0, 0, 0, 0, 0, 0, 0, 0] : List ℝ).take 7)
              (([1, 1, 1, 1, 1, 1, 1, 1, 1, 1] : List ℝ).take 7)).2, Voff,
            (least_squares (([0, 0, 0, 0, 0, 0, 0, 0, 0, 0] : List ℝ).take 7)
              (([1, 1, 1, 1, 1, 1, 1, 1, 1, 1] : List ℝ).take 7)).1,
            2 * (-Voff - (least_squares (([0, 0, 0, 0, 0, 0, 0, 0, 0, 0] : List ℝ).take 7)
                (([1, 1, 1, 1, 1, 1, 1, 1, 1, 1] : List ℝ).take 7)).2 /
              (least_squares (([0, 0, 0, 0, 0, 0, 0, 0, 0, 0] : List ℝ).take 7)
                (([1, 1, 1, 1, 1, 1, 1, 1, 1, 1] : List ℝ).take 7)).1))) ∧
      ((([0, 0, 0, 0, 0, 0, 0, 0, 0, 0] : List ℝ).drop
          (([0, 0, 0, 0, 0, 0, 0, 0, 0, 0] : List ℝ).length - 8)).dropLast).length = 7 ∧
      ((([1, 1, 1, 1, 1, 1, 1, 1, 1, 1] : List ℝ).drop
          (([1, 1, 1, 1, 1, 1, 1, 1, 1, 1] : List ℝ).length - 8)).dropLast).length = 7) :=
  ⟨⟨by simp, by simp⟩,
    fit_params_composition 0 [0, 0, 0, 0, 0, 0, 0, 0, 0, 0] [1, 1, 1, 1, 1, 1, 1, 1, 1, 1]
      (by simp) (by simp)⟩

/-- Descent characterization of the compute_cutoff loop: a returned
value lies k steps of 0.01 below the start, every taken step had an
error no larger than the previous one (the loop also continues on
ties), and one further step from the returned value would strictly
increase the error. -/
theorem compute_cutoffF_some {F : Type} [Field F] {E : Type} [LinearOrder E]
    (e : F → E) : ∀ (fuel : Nat) (x0 r : F),
    compute_cutoffF e fuel x0 = some r →
    ∃ k : Nat, k < fuel ∧ r = x0 - (k : F) * (1 / 100) ∧
      (∀ j : Nat, j < k →
        e (x0 - ((j : F) + 1) * (1 / 100)) ≤ e (x0 - (j : F) * (1 / 100))) ∧
      e r < e (r - 1 / 100) := by
  intro fuel
  induction fuel with
  | zero =>
    intro x0 r h
    simp [compute_cutoffF] at h
  | succ n ih =>
    intro x0 r h
    rw [compute_cutoffF] at h
    by_cases hc : e x0 < e (x0 - 1 / 100)
    · rw [if_pos hc] at h
      injection h with h
      subst h
      exact ⟨0, Nat.succ_pos n, by simp, fun j hj => absurd hj (by omega), by simpa using hc⟩
    · rw [if_neg hc] at h
      obtain ⟨k, hk, hr, hmono, hstop⟩ := ih (x0 - 1 / 100) r h
      refine ⟨k + 1, by omega, ?_, ?_, hstop⟩
      · rw [hr]; push_cast; ring
      · intro j hj
        cases j with
        | zero =>
          simpa using le_of_not_lt hc
        | succ i =>
          have hstep := hmono i (by omega)
          have e1 : x0 - (((i + 1 : Nat) : F) + 1) * (1 / 100) =
              (x0 - 1 / 100) - ((i : F) + 1) * (1 / 100) := by push_cast; ring
          have e2 : x0 - ((i + 1 : Nat) : F) * (1 / 100) =
              (x0 - 1 / 100) - (i : F) * (1 / 100) := by push_cast; ring
          rw [e1, e2]
          exact hstep

/-- The initial guess on a sample lying exactly on the 0.01 grid is
one step of 0.01 below the sample. -/
theorem Voff1guess_on_grid (v : ℚ) (h : ∃ z : ℤ, (z : ℚ) = v * 100) :
    Voff1guess v = v - 1 / 100 := by
  obtain ⟨z, hz⟩ := h
  have hq : (v * 100 - 1 : ℚ) = ((z - 1 : ℤ) : ℚ) := by push_cast; rw [hz]
  rw [Voff1guess, pyint, hq]
  split <;> · simp; linarith [hz]

/-- The initial guess on a negative sample not on the 0.01 grid is the
sample truncated downward to the grid, with no further step. -/
theorem Voff1guess_off_grid (v : ℚ) (hv : v < 0)
    (h : ¬ ∃ z : ℤ, (z : ℚ) = v * 100) :
    Voff1guess v = ((⌊v * 100⌋ : ℤ) : ℚ) * (1 / 100) := by
  have hneg : ¬ (0 : ℚ) ≤ v * 100 - 1 := by nlinarith
  have hceil : ⌈v * 100 - 1⌉ = ⌈v * 100⌉ - 1 := Int.ceil_sub_one (v * 100)
  have h1 : ⌈v * 100⌉ ≤ ⌊v * 100⌋ + 1 := Int.ceil_le_floor_add_one (v * 100)
  have h2 : ⌊v * 100⌋ < ⌈v * 100⌉ := by
    by_contra hle
    push_neg at hle
    have ha : (v * 100 : ℚ) ≤ (⌈v * 100⌉ : ℚ) := Int.le_ceil (v * 100)
    have hb : ((⌊v * 100⌋ : ℤ) : ℚ) ≤ v * 100 := Int.floor_le (v * 100)
    have hc : ((⌈v * 100⌉ : ℤ) : ℚ) ≤ ((⌊v * 100⌋ : ℤ) : ℚ) := by exact_mod_cast hle
    exact h ⟨⌊v * 100⌋, le_antisymm hb (by linarith)⟩
  have hceq : ⌈v * 100⌉ = ⌊v * 100⌋ + 1 := by omega
  rw [Voff1guess, pyint, if_neg hneg, hceil, hceq]
  push_cast
  ring

/-- C10 (amended).  The cutoff refinement decreases x0 in steps of
0.01 for as long as the error does not increase (ties included), and
returns the first x0 from which a further step would strictly increase
the error; the initial guess int(v * 100 - 1) * 0.01 truncates toward
zero, which equals one 0.01 step below v when v lies on the 0.01 grid,
but equals v truncated downward to the grid with no further step when
a negative v is off the grid. -/
theorem compute_cutoff_descent {F : Type} [Field F] {E : Type} [LinearOrder E]
    (e : F → E) (fuel : Nat) (x0 r : F)
    (h : compute_cutoffF e fuel x0 = some r) :
    (∃ k : Nat, k < fuel ∧ r = x0 - (k : F) * (1 / 100) ∧
      (∀ j : Nat, j < k →
        e (x0 - ((j : F) + 1) * (1 / 100)) ≤ e (x0 - (j : F) * (1 / 100))) ∧
      e r < e (r - 1 / 100)) ∧
    (∀ v : ℚ, (∃ z : ℤ, (z : ℚ) = v * 100) → Voff1guess v = v - 1 / 100) ∧
    (∀ v : ℚ, v < 0 → (¬ ∃ z : ℤ, (z : ℚ) = v * 100) →
      Voff1guess v = ((⌊v * 100⌋ : ℤ) : ℚ) * (1 / 100)) :=
  ⟨compute_cutoffF_some e fuel x0 r h, Voff1guess_on_grid, Voff1guess_off_grid⟩

theorem compute_cutoff_descent_witness :
    compute_cutoffF (fun x : ℚ => -x) 1 0 = some 0 ∧
    ((∃ k : Nat, k < 1 ∧ (0 : ℚ) = 0 - (k : ℚ) * (1 / 100) ∧
        (∀ j : Nat, j < k →
          -((0 : ℚ) - ((j : ℚ) + 1) * (1 / 100)) ≤ -((0 : ℚ) - (j : ℚ) * (1 / 100))) ∧
        -(0 : ℚ) < -((0 : ℚ) - 1 / 100)) ∧
      (∀ v : ℚ, (∃ z : ℤ, (z : ℚ) = v * 100) → Voff1guess v = v - 1 / 100) ∧
      (∀ v : ℚ, v < 0 → (¬ ∃ z : ℤ, (z : ℚ) = v * 100) →
        Voff1guess v = ((⌊v * 100⌋ : ℤ) : ℚ) * (1 / 100))) :=
  ⟨by norm_num [compute_cutoffF],
    compute_cutoff_descent (fun x : ℚ => -x) 1 0 0 (by norm_num [compute_cutoffF])⟩

/-- C10 counterexample: for the last sample v = -3.556 (negative and
off the 0.01 grid) the code's initial guess int(v * 100 - 1) * 0.01 =
-3.56 differs from the claimed guess, truncating downward to the
nearest 0.01 and stepping one further 0.01 down, which is -3.57. -/
theorem Voff1guess_not_floor_step :
    Voff1guess ((-3556 : ℚ) / 1000) ≠
      (((⌊((-3556 : ℚ) / 1000) * 100⌋ : ℤ) : ℚ) - 1) * (1 / 100) := by
  have hceil : ⌈((-3556 : ℚ) / 1000) * 100 - 1⌉ = -356 := by
    rw [Int.ceil_eq_iff]
    norm_num
  have hfloor : ⌊((-3556 : ℚ) / 1000) * 100⌋ = -356 := by
    rw [Int.floor_eq_iff]
    norm_num
  rw [Voff1guess, pyint, if_neg (by norm_num), hceil, hfloor]
  norm_num
